import Mathlib

/-!
Shallow embedding of `include/boost/async/process.hpp` (boost::async::process).

The header defines, inline, the two coroutine awaitable bridges `wait_op_`
and `wait_op_ec_` (fields `result`, `error`; members `await_ready`,
`await_suspend`, `await_resume`), and the configuration bundle
`process_args` with its default member initializers.  The remaining member
functions of `struct process` (`wait`, `exit_code`, `async_wait`,
`terminate`, `interrupt`, `request_exit`, `detach`, the destructor) are
declared in the header but their bodies live outside this repository
snapshot; those are modelled from the specification, as marked on each
definition.

Modelling conventions:
- `error_code` is a natural number, `0` meaning success; the C++ test
  `if (std::get<0>(*result))` (boost::system::error_code contextual bool)
  becomes a comparison with `0`.
- `exception_ptr` is `Option Nat`: `none` is the null pointer, `some e`
  identifies a captured exception.
- `native_exit_code_type` is a natural number holding the raw OS wait
  status.  Exceptions raised by a modelled C++ function appear as explicit
  outcome constructors rather than as Lean-level effects, so every
  definition stays executable.
-/

/-- Model of boost::system::error_code: `0` is success, nonzero is failure
(matching the contextual-bool test used at lines 172 and 208 of the header). -/
abbrev error_code : Type := Nat

/-- Model of std::exception_ptr: `none` is nullptr, `some e` a captured
exception identified by `e`. -/
abbrev exception_ptr : Type := Option Nat

/-- Model of boost::process::v2::native_exit_code_type, the raw OS-specific
wait status (e.g. the status word filled by waitpid on POSIX). -/
abbrev native_exit_code_type : Type := Nat

/-- Modelled from the spec: the portable normalized exit code derived from
the raw OS status (spec glossary: "normalized exit status comparable across
platforms, as opposed to the raw OS-specific exit status").  The
normalization itself is done by the external process library; we model the
POSIX convention, where a normal exit with code c is reported as the raw
status c * 256, so normalization extracts bits 8..15. -/
def evaluate_exit_code (native_status : native_exit_code_type) : Nat :=
  native_status / 256 % 256

/-- Ownership state of a process handle, from spec section 3: Owned handles
terminate the process on destruction if still running, Detached never do,
Attached handles were constructed from an externally supplied pid. -/
inductive ownership_mode where
  | Owned
  | Detached
  | Attached
deriving DecidableEq, Repr

/-- Modelled from the spec (section 3 data model): the observable state of a
`boost::async::process` handle.  The body of the class is not in the header,
only its interface; `cached_exit_code` holds the portable exit code once
first observed, `is_open` whether the handle refers to an OS resource. -/
structure process where
  pid : Nat
  cached_exit_code : Option Nat
  is_open : Bool
  ownership : ownership_mode
deriving DecidableEq, Repr

/-- The three signals a handle can send to the OS process: `interrupt` via
interrupt(), `request_exit` via request_exit(), `kill` via terminate() and
via the destructor of a non-detached handle. -/
inductive os_signal where
  | interrupt
  | request_exit
  | kill
deriving DecidableEq, Repr

/-- Outcome of resuming one of the bridges (`await_resume`).  The C++
member returns void, so a normal return carries no value (`returns`);
`rethrows e` models `std::rethrow_exception`, `throws_system_error ec`
models `throw system::system_error(ec)`, and `undefined_deref` marks the
undefined behaviour of dereferencing the empty `result` optional. -/
inductive resume_outcome where
  | rethrows (e : Nat)
  | throws_system_error (ec : error_code)
  | returns
  | undefined_deref
deriving DecidableEq, Repr

/-- The error-raising bridge `process::wait_op_` (header lines 142-175).
The C++ struct also holds `process * proc`, used only as the target of the
`async_wait` registration inside `await_suspend`; the registration call is
external interaction and is modelled by the outcome parameter of
`await_suspend`, so the pointer itself carries no state here.
`result` is `std::optional<std::tuple<error_code, native_exit_code_type>>`,
`error` is the `std::exception_ptr` slot. -/
structure wait_op_ where
  result : Option (error_code × native_exit_code_type)
  error : exception_ptr
deriving DecidableEq, Repr

/-- Header line 148: `constexpr static bool await_ready() {return false;}`.
The member is static, so it cannot depend on any bridge state. -/
def wait_op_.await_ready : Bool := false

/-- Header lines 152-165: `await_suspend` tries to register with
`proc->async_wait`; on success it returns true (suspend), and if the
registration throws it stores the exception in `error` and returns false.
`registration` is the outcome of the external registration call (`none` =
returned normally, `some e` = threw exception e).  The Lean return type is
a plain pair, reflecting that the `catch(...)` lets no exception escape. -/
def wait_op_.await_suspend (s : wait_op_) (registration : Option Nat) :
    Bool × wait_op_ :=
  match registration with
  | none => (true, s)
  | some e => (false, { s with error := some e })

/-- Header lines 167-174: `await_resume` rethrows a captured exception
after exchanging the slot to nullptr, otherwise throws a system_error when
the stored error_code is truthy, otherwise returns (void).  Dereferencing
`*result` while `result` is empty is undefined behaviour, modelled by the
`undefined_deref` outcome.  Returns the outcome and the updated bridge. -/
def wait_op_.await_resume (s : wait_op_) : resume_outcome × wait_op_ :=
  match s.error with
  | some e => (resume_outcome.rethrows e, { s with error := none })
  | none =>
    match s.result with
    | none => (resume_outcome.undefined_deref, s)
    | some (ec0, _native) =>
      if ec0 = 0 then (resume_outcome.returns, s)
      else (resume_outcome.throws_system_error ec0, s)

/-- The error-reporting bridge `process::wait_op_ec_` (header lines
177-211).  In addition to the fields of `wait_op_` it holds a reference
`system::error_code & ec` to a caller-owned slot; the field `ec` below is
the current value of that referenced slot.  As for `wait_op_`, the `proc`
pointer is only the registration target and carries no state here. -/
structure wait_op_ec_ where
  ec : error_code
  result : Option (error_code × native_exit_code_type)
  error : exception_ptr
deriving DecidableEq, Repr

/-- Header line 184: `constexpr static bool await_ready() {return false;}`
of `wait_op_ec_`; static, hence state-independent. -/
def wait_op_ec_.await_ready : Bool := false

/-- Header lines 188-201: identical to `wait_op_.await_suspend` - register,
return true on success, capture the exception and return false on failure,
letting nothing escape. -/
def wait_op_ec_.await_suspend (s : wait_op_ec_) (registration : Option Nat) :
    Bool × wait_op_ec_ :=
  match registration with
  | none => (true, s)
  | some e => (false, { s with error := some e })

/-- Header lines 203-210: `await_resume` of `wait_op_ec_` rethrows a
captured exception after clearing the slot; otherwise, when the stored
error_code is truthy it assigns it to the caller-owned `ec` slot and falls
off the end, and when it is falsy it returns without touching `ec`.  Both
non-exception paths return normally (void). -/
def wait_op_ec_.await_resume (s : wait_op_ec_) : resume_outcome × wait_op_ec_ :=
  match s.error with
  | some e => (resume_outcome.rethrows e, { s with error := none })
  | none =>
    match s.result with
    | none => (resume_outcome.undefined_deref, s)
    | some (ec0, _native) =>
      if ec0 = 0 then (resume_outcome.returns, s)
      else (resume_outcome.returns, { s with ec := ec0 })

/-- Modelled from the spec (section 4.1): wait() blocks for exit and
returns the portable exit code; when `cached_exit_code` is already set it
returns the cached value immediately without a syscall.  `native_status`
is the raw status the OS would report; the third component counts the OS
exit-status queries performed by the call. -/
def process.wait (p : process) (native_status : native_exit_code_type) :
    Nat × process × Nat :=
  match p.cached_exit_code with
  | some c => (c, p, 0)
  | none =>
    let c := evaluate_exit_code native_status
    (c, { p with cached_exit_code := some c }, 1)

/-- Modelled from the spec: exit_code() is a pure query returning the
portable exit code - the cached one when present, otherwise the
normalization of the raw status held by the implementation. -/
def process.exit_code (p : process) (native_status : native_exit_code_type) :
    Nat :=
  match p.cached_exit_code with
  | some c => c
  | none => evaluate_exit_code native_status

/-- Modelled from the spec: the (error, exit code) pair async_wait delivers
to its completion handler when the process exits with raw status
`native_status` and the wait itself fails with `err` (0 for success).  Per
the doc comment on the declaration (header line 244, "deliver the portable
exit-code in the completion handler") and spec section 6, the delivered
exit code is the portable one, carried in `native_exit_code_type`. -/
def process.async_wait_result (native_status : native_exit_code_type)
    (err : error_code) : error_code × Nat :=
  (err, evaluate_exit_code native_status)

/-- Modelled from the spec: interrupt() sends a best-effort soft signal and
never blocks; it changes no handle state.  Returns (handle, signals sent,
whether the call blocks). -/
def process.interrupt (p : process) : process × List os_signal × Bool :=
  (p, [os_signal.interrupt], false)

/-- Modelled from the spec: request_exit() sends a best-effort graceful
shutdown request and never blocks, like interrupt(). -/
def process.request_exit (p : process) : process × List os_signal × Bool :=
  (p, [os_signal.request_exit], false)

/-- Modelled from the spec (section 4.1): terminate() unconditionally sends
a forceful kill, then synchronously waits for the OS to report exit and
caches the portable exit code before returning; it is the blocking signal
operation.  An already cached code is kept, since the cache is written at
most once.  Returns (handle, signals sent, whether the call blocks). -/
def process.terminate (p : process) (native_status : native_exit_code_type) :
    process × List os_signal × Bool :=
  match p.cached_exit_code with
  | some _ => (p, [os_signal.kill], true)
  | none =>
    ({ p with cached_exit_code := some (evaluate_exit_code native_status) },
     [os_signal.kill], true)

/-- Modelled from the spec (section 3): detach() yields the raw handle to
the caller, flips the ownership mode to Detached and invalidates this
instance, so that its destructor performs no termination. -/
def process.detach (p : process) : Nat × process :=
  (p.pid, { p with ownership := ownership_mode.Detached, is_open := false })

/-- Modelled from the spec (section 3 lifecycle and the destructor doc at
header line 122): destruction of a non-detached open handle whose process
is still running sends a forceful kill, fire-and-forget; a Detached handle
never signals.  Returns the signals the destructor sends. -/
def process.destructor_signals (p : process) (still_running : Bool) :
    List os_signal :=
  match p.ownership with
  | ownership_mode.Detached => []
  | _ => if p.is_open && still_running then [os_signal.kill] else []

/-- Modelled from the spec (section 8 testable properties): the process
survives destruction of a handle exactly when it was still running and the
destructor sent it no signal. -/
def process_alive_after_destruction (p : process) (still_running : Bool) :
    Bool :=
  still_running && (process.destructor_signals p still_running).isEmpty

/-- Ambient state sampled by the default member initializers of
`process_args`: the current working directory
(`filesystem::current_path()`) and the current environment
(`environment::current()`), both external collaborators. -/
structure ambient_state where
  current_path : String
  current_environment : List (String × String)
deriving DecidableEq, Repr

/-- The configuration bundle `process_args` (header lines 21-26): stdio
wiring (opaque here, external collaborator), start directory and
environment. -/
structure process_args where
  stdio : Nat
  start_dir : String
  env : List (String × String)
deriving DecidableEq, Repr

/-- Default construction of `process_args`: per the default member
initializers at header lines 24-25, `start_dir` defaults to
`filesystem::current_path()` and `env` to `environment::current()`,
sampled from the ambient state at construction time; the stdio member is
default-constructed (opaque, modelled as 0). -/
def process_args.default_construct (amb : ambient_state) : process_args :=
  { stdio := 0, start_dir := amb.current_path, env := amb.current_environment }

/-- The configuration bundle a spawn constructor actually uses: the
constructors take `process_args && arg = {}` (header lines 70-102), so a
call that passes no bundle (`none`) gets a default-constructed one. -/
def process.spawn_args (amb : ambient_state) (arg : Option process_args) :
    process_args :=
  match arg with
  | some a => a
  | none => process_args.default_construct amb

/-- Helper: the POSIX raw status 1792 normalizes to the portable code 7. -/
theorem evaluate_exit_code_1792 : evaluate_exit_code 1792 = 7 := by decide

/-- C1: every exit observation through wait(), async_wait() and exit_code()
delivers the portable normalized exit code, not the native raw status; in
particular the completion handler receives the portable code.  Stated for a
handle with no cached code yet (a cached code is itself a previously
normalized one); the final conjuncts show portable and native genuinely
differ on the concrete raw status 1792 (exit code 7). -/
theorem c1_exit_observations_portable :
    (∀ (pid : Nat) (op : Bool) (ow : ownership_mode)
       (ns : native_exit_code_type),
        (process.wait ⟨pid, none, op, ow⟩ ns).1 = evaluate_exit_code ns)
  ∧ (∀ (pid : Nat) (op : Bool) (ow : ownership_mode)
       (ns : native_exit_code_type),
        process.exit_code ⟨pid, none, op, ow⟩ ns = evaluate_exit_code ns)
  ∧ (∀ (ns : native_exit_code_type) (err : error_code),
        (process.async_wait_result ns err).2 = evaluate_exit_code ns)
  ∧ (process.async_wait_result 1792 0).2 = 7
  ∧ evaluate_exit_code 1792 = 7 := by
  refine ⟨fun pid op ow ns => rfl, fun pid op ow ns => rfl,
          fun ns err => rfl, by decide, by decide⟩

/-- C2 counterexample: the claim says that in the absence of any failure
both variants of await_resume return the portable exit code to the caller.
In the source both await_resume members return void: resuming a bridge
whose process exited with portable code 7 (raw status 1792) produces
exactly the same bare outcome as resuming one whose process exited with
code 0 (raw status 0), so no exit code is conveyed by resume. -/
theorem c2_resume_returns_void_counterexample :
    (wait_op_.await_resume ⟨some (0, 1792), none⟩).1 = resume_outcome.returns
  ∧ (wait_op_.await_resume ⟨some (0, 1792), none⟩).1 =
      (wait_op_.await_resume ⟨some (0, 0), none⟩).1
  ∧ (wait_op_ec_.await_resume ⟨0, some (0, 1792), none⟩).1 =
      resume_outcome.returns
  ∧ (wait_op_ec_.await_resume ⟨0, some (0, 1792), none⟩).1 =
      (wait_op_ec_.await_resume ⟨0, some (0, 0), none⟩).1
  ∧ evaluate_exit_code 1792 = 7
  ∧ evaluate_exit_code 0 = 0 := by
  refine ⟨rfl, rfl, rfl, rfl, by decide, by decide⟩

/-- C2 (amended): for both bridge variants, await_resume first re-raises a
captured registration exception if present (clearing the slot); otherwise,
when the stored error code is a failure, wait_op_ throws a system_error
while wait_op_ec_ writes the error into the caller-owned ec slot; and in
the absence of any failure both variants return normally without producing
a value (await_resume returns void) - the exit code is not delivered
through resume. -/
theorem c2_resume_behaviour :
    (∀ (r : Option (error_code × native_exit_code_type)) (e : Nat),
        wait_op_.await_resume ⟨r, some e⟩ =
          (resume_outcome.rethrows e, ⟨r, none⟩))
  ∧ (∀ (ec0 n : Nat),
        wait_op_.await_resume ⟨some (ec0 + 1, n), none⟩ =
          (resume_outcome.throws_system_error (ec0 + 1),
           ⟨some (ec0 + 1, n), none⟩))
  ∧ (∀ (n : Nat),
        wait_op_.await_resume ⟨some (0, n), none⟩ =
          (resume_outcome.returns, ⟨some (0, n), none⟩))
  ∧ (∀ (cec : error_code) (r : Option (error_code × native_exit_code_type))
       (e : Nat),
        wait_op_ec_.await_resume ⟨cec, r, some e⟩ =
          (resume_outcome.rethrows e, ⟨cec, r, none⟩))
  ∧ (∀ (cec ec0 n : Nat),
        wait_op_ec_.await_resume ⟨cec, some (ec0 + 1, n), none⟩ =
          (resume_outcome.returns, ⟨ec0 + 1, some (ec0 + 1, n), none⟩))
  ∧ (∀ (cec n : Nat),
        wait_op_ec_.await_resume ⟨cec, some (0, n), none⟩ =
          (resume_outcome.returns, ⟨cec, some (0, n), none⟩)) := by
  refine ⟨fun r e => rfl, fun ec0 n => ?_, fun n => rfl,
          fun cec r e => rfl, fun cec ec0 n => ?_, fun cec n => rfl⟩
  · simp [wait_op_.await_resume]
  · simp [wait_op_ec_.await_resume]

/-- C3: in both variants, when the async_wait registration inside
await_suspend throws exception e, the exception is captured into the
internal error slot and await_suspend returns false (resume immediately);
the return type being a plain pair reflects that the catch-all lets no
exception propagate out.  When registration succeeds, await_suspend
returns true and the state is untouched. -/
theorem c3_suspend_captures_registration_failure :
    (∀ (s : wait_op_) (e : Nat),
        wait_op_.await_suspend s (some e) = (false, { s with error := some e }))
  ∧ (∀ (s : wait_op_), wait_op_.await_suspend s none = (true, s))
  ∧ (∀ (s : wait_op_ec_) (e : Nat),
        wait_op_ec_.await_suspend s (some e) =
          (false, { s with error := some e }))
  ∧ (∀ (s : wait_op_ec_), wait_op_ec_.await_suspend s none = (true, s)) := by
  exact ⟨fun s e => rfl, fun s => rfl, fun s e => rfl, fun s => rfl⟩

/-- C4: cached_exit_code is written at most once - wait() on a handle whose
cache is set returns the cached code, leaves the handle unchanged and
performs zero OS queries, and terminate() also preserves an existing cache;
concretely, a process exiting with code 7 (raw status 1792) gives a first
wait() returning 7 with one OS query, and a second wait() on the resulting
handle returning 7 with zero OS queries. -/
theorem c4_cached_exit_code_set_once :
    (∀ (pid c : Nat) (op : Bool) (ow : ownership_mode)
       (ns : native_exit_code_type),
        process.wait ⟨pid, some c, op, ow⟩ ns = (c, ⟨pid, some c, op, ow⟩, 0))
  ∧ (∀ (pid c : Nat) (op : Bool) (ow : ownership_mode)
       (ns : native_exit_code_type),
        ((process.terminate ⟨pid, some c, op, ow⟩ ns).1).cached_exit_code =
          some c)
  ∧ (∀ (pid : Nat) (op : Bool) (ow : ownership_mode),
        process.wait ⟨pid, none, op, ow⟩ 1792 =
          (7, ⟨pid, some 7, op, ow⟩, 1)
      ∧ process.wait ⟨pid, some 7, op, ow⟩ 1792 =
          (7, ⟨pid, some 7, op, ow⟩, 0)) := by
  refine ⟨fun pid c op ow ns => rfl, fun pid c op ow ns => rfl,
          fun pid op ow => ⟨?_, rfl⟩⟩
  simp [process.wait, evaluate_exit_code]

/-- C5: terminate() unconditionally sends a kill and is the only blocking
signal operation (interrupt and request_exit never block); after it
returns, cached_exit_code is populated, so a subsequent wait() performs
zero OS queries. -/
theorem c5_terminate_blocks_and_caches :
    ∀ (p : process) (ns ns2 : native_exit_code_type),
      (p.terminate ns).2 = ([os_signal.kill], true)
    ∧ ((p.terminate ns).1).cached_exit_code.isSome = true
    ∧ ((p.terminate ns).1.wait ns2).2.2 = 0
    ∧ (p.interrupt).2.2 = false
    ∧ (p.request_exit).2.2 = false := by
  intro p ns ns2
  rcases p with ⟨pid, c, op, ow⟩
  cases c <;>
    simp [process.terminate, process.wait, process.interrupt,
          process.request_exit]

/-- C6: a handle in ownership mode Detached never issues a termination
signal from its destructor, and this is the mode detach() leaves a handle
in; consequently a running process is still alive after destruction of a
detached handle. -/
theorem c6_detached_destructor_inert :
    (∀ (pid : Nat) (c : Option Nat) (op : Bool) (r : Bool),
        process.destructor_signals ⟨pid, c, op, ownership_mode.Detached⟩ r = [])
  ∧ (∀ (p : process) (r : Bool),
        process.destructor_signals (p.detach).2 r = [])
  ∧ (∀ (pid : Nat) (c : Option Nat) (op : Bool),
        process_alive_after_destruction
          ⟨pid, c, op, ownership_mode.Detached⟩ true = true) := by
  refine ⟨fun pid c op r => rfl, fun p r => rfl, fun pid c op => rfl⟩

/-- C7: the readiness check of both bridge variants reports not-ready; the
members are constexpr static (header lines 148 and 184), so they cannot
consult any bridge or process state - the caller is suspended even when
the process has already exited. -/
theorem c7_await_ready_always_false :
    wait_op_.await_ready = false ∧ wait_op_ec_.await_ready = false :=
  ⟨rfl, rfl⟩

/-- C8: spawning with a default-constructed process_args bundle uses a
start directory equal to the current working directory at construction
time and the inherited current environment, per the default member
initializers and the defaulted constructor argument. -/
theorem c8_default_args_current_path_and_env :
    ∀ (amb : ambient_state),
      (process.spawn_args amb none).start_dir = amb.current_path
    ∧ (process.spawn_args amb none).env = amb.current_environment := by
  exact fun amb => ⟨rfl, rfl⟩

/-- C9: in both variants await_resume exchanges the exception slot to null
before rethrowing, so a captured registration exception is surfaced at most
once: the post-resume state has an empty slot, and a second resume over
that state (registration failed, so the result slot was never populated)
does not rethrow - it proceeds to the result check, where it dereferences
the still-empty result optional. -/
theorem c9_exception_surfaced_at_most_once :
    (∀ (r : Option (error_code × native_exit_code_type)) (e : Nat),
        ((wait_op_.await_resume ⟨r, some e⟩).2).error = none)
  ∧ (∀ (e : Nat),
        wait_op_.await_resume ⟨none, some e⟩ =
          (resume_outcome.rethrows e, ⟨none, none⟩)
      ∧ (wait_op_.await_resume ⟨none, none⟩).1 = resume_outcome.undefined_deref)
  ∧ (∀ (cec : error_code)
       (r : Option (error_code × native_exit_code_type)) (e : Nat),
        ((wait_op_ec_.await_resume ⟨cec, r, some e⟩).2).error = none)
  ∧ (∀ (cec : error_code) (e : Nat),
        wait_op_ec_.await_resume ⟨cec, none, some e⟩ =
          (resume_outcome.rethrows e, ⟨cec, none, none⟩)
      ∧ (wait_op_ec_.await_resume ⟨cec, none, none⟩).1 =
          resume_outcome.undefined_deref) := by
  refine ⟨fun r e => rfl, fun e => ⟨rfl, rfl⟩, fun cec r e => rfl,
          fun cec e => ⟨rfl, rfl⟩⟩

/-- C10: wait_op_ec_.await_resume writes the caller-owned ec slot only when
the stored error code is a failure; on a successful wait (stored error code
0) the entire state, in particular the ec slot, is left unchanged - it is
not reset to a success value. -/
theorem c10_ec_written_only_on_failure :
    (∀ (cec n : Nat),
        wait_op_ec_.await_resume ⟨cec, some (0, n), none⟩ =
          (resume_outcome.returns, ⟨cec, some (0, n), none⟩))
  ∧ (∀ (cec ec0 n : Nat),
        ((wait_op_ec_.await_resume ⟨cec, some (ec0 + 1, n), none⟩).2).ec =
          ec0 + 1) := by
  refine ⟨fun cec n => rfl, fun cec ec0 n => ?_⟩
  simp [wait_op_ec_.await_resume]
